import Mathlib

/-!
Verification of the telegram-summarizer pipeline (src/telegram-summarizer.py).

Shallow embedding conventions:
- Python strings are modelled as lists of characters (`Str := List Char`);
  string literals are written as `"...".toList`.
- The external tokenizer (tiktoken) is modelled as a function parameter
  `tok : Str → Nat` (the length of `TOKENIZER.encode(s)`), and the
  token-level truncation `TOKENIZER.decode(TOKENIZER.encode(s)[:n])` as a
  parameter `trunc : Str → Int → Str`.
- The remote summarization service is modelled at two levels: the raw
  per-attempt outcome stream feeding `call_anthropic_api`, and, for the
  higher-level functions, a deterministic stub
  `api : Str → Str → Str` mapping (system prompt, user content) to the
  string the adapter ultimately returns (generated text or error marker).
- File-system effects (state snapshot writes) are modelled by returning the
  list of snapshots written; clocks are parameters.
-/

abbrev Str := List Char

/-- Python whitespace characters recognised by `str.strip()` (ASCII range). -/
def pyIsSpace (c : Char) : Bool :=
  c = ' ' || c = '\t' || c = '\n' || c = '\r' || c = '\x0b' || c = '\x0c'

/-- Python `s.strip()`: drop leading and trailing whitespace. -/
def pyStrip (s : Str) : Str :=
  ((s.dropWhile pyIsSpace).reverse.dropWhile pyIsSpace).reverse

/-- Python `sep.join(list)`. -/
def pyJoin (sep : Str) : List Str → Str
  | [] => []
  | [t] => t
  | t :: t2 :: ts => t ++ sep ++ pyJoin sep (t2 :: ts)

/-- Python slice `l[a:b]` for `0 ≤ a ≤ b` (the only shape the source uses). -/
def pySlice (l : List α) (a b : Nat) : List α :=
  (l.drop a).take (b - a)

/-- The separator `"\n\n---\n\n"` used throughout the source to join insight
texts. -/
def SEP : Str := "\n\n---\n\n".toList

/-- The reserved error-marker test every call site of the source performs:
`s.startswith("ANTHROPIC_") or s.startswith("UNEXPECTED_")`. -/
def is_error_marker (s : Str) : Bool :=
  "ANTHROPIC_".toList.isPrefixOf s || "UNEXPECTED_".toList.isPrefixOf s

-- Configuration constants of the source (lines 53-60).

def MESSAGES_PER_CHUNK : Nat := 50

def MAX_PREVIOUS_INSIGHTS_TOKENS_FOR_CHUNK_PROCESSING : Nat := 100000

def MAX_TOKENS_FOR_INSIGHT_COLLECTION_COMPACTION : Nat := 150000

def MAX_INSIGHTS_PER_META_CHUNK_FOR_REPORT : Nat := 30

def MAX_TOKENS_FOR_FINAL_REPORT_GENERATION : Nat := 180000

def MAX_API_RETRIES : Nat := 5

def INITIAL_BACKOFF_SECONDS : Nat := 5

def MAX_BACKOFF_SECONDS : Nat := 120

/-- The degraded-path loop of `compact_insights_collection` (source lines
210-215): iterate over the reversed insight list, greedily prepending each
text (accounted as its token count plus 5 for the separator) while the
running total stays within the budget, stopping at the first text that does
not fit. -/
def degraded_loop (tok : Str → Nat) (budget : Nat) :
    List Str → Str → Nat → Str
  | [], safe_str, _ => safe_str
  | text :: rest, safe_str, temp_tokens =>
    let text_tokens := tok text + 5
    if temp_tokens + text_tokens ≤ budget then
      degraded_loop tok budget rest (text ++ SEP ++ safe_str)
        (temp_tokens + text_tokens)
    else safe_str

/-- `compact_insights_collection` (source lines 189-220), parameterised by
the summarization stub `api`, the tokenizer `tok` and the token-level
truncation `trunc`.  Returns the resulting context string together with the
list of (system prompt, user content) service calls issued. -/
def compact_insights_collection (api : Str → Str → Str) (tok : Str → Nat)
    (trunc : Str → Int → Str) (insights_texts_list : List Str)
    (max_tokens_for_context : Nat) (prompt_for_compaction : Str) :
    Str × List (Str × Str) :=
  if insights_texts_list = [] then ([], [])
  else
    let full_insights_str := pyJoin SEP insights_texts_list
    let current_tokens := tok full_insights_str
    if current_tokens > max_tokens_for_context then
      let max_allowed_input_for_compactor : Int :=
        (MAX_TOKENS_FOR_INSIGHT_COLLECTION_COMPACTION : Int)
          - (tok prompt_for_compaction : Int) - 2000
      let compaction_input_str :=
        if (tok full_insights_str : Int) > max_allowed_input_for_compactor then
          trunc full_insights_str max_allowed_input_for_compactor
        else full_insights_str
      let user_prompt :=
        "Please compact the following collection of insights according to the instructions:\n\n".toList
          ++ compaction_input_str
      let compacted_summary := api prompt_for_compaction user_prompt
      if is_error_marker compacted_summary then
        (pyStrip
          (degraded_loop tok max_tokens_for_context
            insights_texts_list.reverse [] 0),
          [(prompt_for_compaction, user_prompt)])
      else (compacted_summary, [(prompt_for_compaction, user_prompt)])
    else (full_insights_str, [])

/-- Claim C4: for every non-empty list of insight texts whose concatenation
joined with the separator is within the token budget,
`compact_insights_collection` returns that concatenation unchanged and
issues zero calls to the summarization service. -/
theorem claim_C4_cheap_path (api : Str → Str → Str) (tok : Str → Nat)
    (trunc : Str → Int → Str) (l : List Str) (budget : Nat) (prompt : Str)
    (hne : l ≠ []) (hfit : tok (pyJoin SEP l) ≤ budget) :
    compact_insights_collection api tok trunc l budget prompt
      = (pyJoin SEP l, []) := by
  unfold compact_insights_collection
  rw [if_neg hne, if_neg (by omega)]

theorem claim_C4_witness :
    compact_insights_collection (fun _ _ => "X".toList) List.length
      (fun s _ => s) ["a".toList] 100 [] = ("a".toList, []) :=
  claim_C4_cheap_path _ List.length _ _ 100 _ (by decide) (by decide)

/-- Joining a list of texts where every element is followed by the
separator; this is the shape the degraded-path loop builds. -/
def joinTrail : List Str → Str
  | [] => []
  | t :: ts => t ++ SEP ++ joinTrail ts

/-- Modelled from the spec: the greedy selection of the most-recent insight
texts, iterating from the end of the list backward (the input here is the
reversed list) and stopping as soon as the next item would exceed the
budget.  Used only as the specification-side description the code is
compared with. -/
def spec_recent_fit (tok : Str → Nat) (budget : Nat) :
    List Str → Nat → List Str
  | [], _ => []
  | t :: rest, used =>
    if used + (tok t + 5) ≤ budget then
      t :: spec_recent_fit tok budget rest (used + (tok t + 5))
    else []

theorem joinTrail_append (xs ys : List Str) :
    joinTrail (xs ++ ys) = joinTrail xs ++ joinTrail ys := by
  induction xs with
  | nil => simp [joinTrail]
  | cons t ts ih => simp [joinTrail, ih]

theorem degraded_loop_eq (tok : Str → Nat) (budget : Nat) (l : List Str)
    (safe : Str) (temp : Nat) :
    degraded_loop tok budget l safe temp
      = joinTrail (spec_recent_fit tok budget l temp).reverse ++ safe := by
  induction l generalizing safe temp with
  | nil => simp [degraded_loop, spec_recent_fit, joinTrail]
  | cons t rest ih =>
    by_cases h : temp + (tok t + 5) ≤ budget
    · simp only [degraded_loop, spec_recent_fit, if_pos h, ih,
        List.reverse_cons, joinTrail_append, joinTrail]
      simp
    · simp [degraded_loop, spec_recent_fit, if_neg h, joinTrail]

theorem degraded_loop_tok_le (tok : Str → Nat) (budget : Nat)
    (h1 : ∀ t s, tok (t ++ SEP ++ s) ≤ tok t + 5 + tok s) :
    ∀ (l : List Str) (safe : Str) (temp : Nat),
      tok safe ≤ temp → temp ≤ budget →
      tok (degraded_loop tok budget l safe temp) ≤ budget := by
  intro l
  induction l with
  | nil => intro safe temp hs ht; simpa [degraded_loop] using hs.trans ht
  | cons t rest ih =>
    intro safe temp hs ht
    by_cases h : temp + (tok t + 5) ≤ budget
    · simp only [degraded_loop, if_pos h]
      exact ih _ _ (le_trans (h1 t safe) (by omega)) h
    · simpa [degraded_loop, if_neg h] using hs.trans ht

theorem degraded_loop_suffix (tok : Str → Nat) (budget : Nat) :
    ∀ (l : List Str) (safe : Str) (temp : Nat),
      safe <:+ degraded_loop tok budget l safe temp := by
  intro l
  induction l with
  | nil => intro safe temp; simp [degraded_loop]
  | cons t rest ih =>
    intro safe temp
    by_cases h : temp + (tok t + 5) ≤ budget
    · simp only [degraded_loop, if_pos h]
      exact List.IsSuffix.trans ⟨t ++ SEP, by simp⟩ (ih _ _)
    · simp [degraded_loop, if_neg h]

theorem mem_dropWhile_of_not (p : Char → Bool) (c : Char) :
    ∀ s : Str, c ∈ s → p c = false → c ∈ s.dropWhile p := by
  intro s
  induction s with
  | nil => intro h; cases h
  | cons h t ih =>
    intro hm hp
    by_cases hh : p h = true
    · rw [List.dropWhile_cons_of_pos hh]
      rcases List.mem_cons.mp hm with rfl | hm'
      · rw [hh] at hp; cases hp
      · exact ih hm' hp
    · rwa [List.dropWhile_cons_of_neg hh]

theorem mem_pyStrip (c : Char) (s : Str) (hm : c ∈ s)
    (hp : pyIsSpace c = false) : c ∈ pyStrip s := by
  unfold pyStrip
  rw [List.mem_reverse]
  exact mem_dropWhile_of_not _ _ _
    (by rw [List.mem_reverse]; exact mem_dropWhile_of_not _ _ _ hm hp) hp

theorem count_pyStrip_le (c : Char) (s : Str) :
    List.count c (pyStrip s) ≤ List.count c s := by
  unfold pyStrip
  rw [List.count_reverse]
  calc List.count c ((s.dropWhile pyIsSpace).reverse.dropWhile pyIsSpace)
      ≤ List.count c (s.dropWhile pyIsSpace).reverse :=
        (List.dropWhile_sublist _).count_le c
    _ = List.count c (s.dropWhile pyIsSpace) := List.count_reverse c _
    _ ≤ List.count c s := (List.dropWhile_sublist _).count_le c

/-- Claim C2 counterexample: with a single insight text of 10 tokens, a
budget of 3 and a service stub that always fails, the joined concatenation
exceeds the budget and every service call fails, yet
`compact_insights_collection` returns the EMPTY string (the degraded loop
cannot fit even the most recent text), refuting the claim that the result
is always non-empty. -/
theorem claim_C2_counterexample :
    ("aaaaaaaaaa".toList : Str) ≠ []
    ∧ List.length (pyJoin SEP ["aaaaaaaaaa".toList]) > 3
    ∧ is_error_marker "ANTHROPIC_API_ERROR (Code 500): boom".toList = true
    ∧ (compact_insights_collection
        (fun _ _ => "ANTHROPIC_API_ERROR (Code 500): boom".toList)
        List.length (fun s _ => s) ["aaaaaaaaaa".toList] 3 []).1 = [] := by
  refine ⟨by decide, by decide, by decide, by decide⟩

/-- Claim C2 (amended): for every non-empty list of insight texts whose
joined concatenation exceeds the budget, if every call to the summarization
service fails, `compact_insights_collection` returns exactly the greedy
rebuild from the most-recent insight texts (iterating backward from the end
of the list and stopping as soon as the next item would exceed the budget),
never the error marker of the service; the result respects the original
budget whenever the tokenizer is separator-subadditive (joining with the
separator costs at most 5 extra tokens) and stripping does not increase the
token count; and the result is non-empty PROVIDED the most recent insight
text itself fits within the budget (its token count plus 5 is at most the
budget) — without that proviso the result can be empty, as the
counterexample shows. -/
theorem claim_C2_degraded_path (api : Str → Str → Str) (tok : Str → Nat)
    (trunc : Str → Int → Str) (l : List Str) (budget : Nat) (prompt : Str)
    (hne : l ≠ [])
    (hover : tok (pyJoin SEP l) > budget)
    (hfail : ∀ s u, is_error_marker (api s u) = true)
    (h1 : ∀ t s, tok (t ++ SEP ++ s) ≤ tok t + 5 + tok s)
    (hstrip : ∀ s, tok (pyStrip s) ≤ tok s)
    (h0 : tok [] = 0)
    (hlast : tok (l.getLastD []) + 5 ≤ budget) :
    (compact_insights_collection api tok trunc l budget prompt).1
        = pyStrip
            (joinTrail (spec_recent_fit tok budget l.reverse 0).reverse)
      ∧ (compact_insights_collection api tok trunc l budget prompt).1 ≠ []
      ∧ tok (compact_insights_collection api tok trunc l budget prompt).1
          ≤ budget := by
  have hres : (compact_insights_collection api tok trunc l budget prompt).1
      = pyStrip (degraded_loop tok budget l.reverse [] 0) := by
    simp only [compact_insights_collection, if_neg hne]
    rw [if_pos hover, if_pos (hfail _ _)]
  have hnonempty :
      pyStrip (degraded_loop tok budget l.reverse [] 0) ≠ [] := by
    cases hr : l.reverse with
    | nil => exact absurd (List.reverse_eq_nil_iff.mp hr) hne
    | cons t rest =>
      have ht : l.getLastD [] = t := by
        rw [List.getLastD_eq_getLast?, ← List.head?_reverse, hr]; rfl
      have hfit : 0 + (tok t + 5) ≤ budget := by
        rw [ht] at hlast; omega
      have hstep : degraded_loop tok budget (t :: rest) [] 0
          = degraded_loop tok budget rest (t ++ SEP ++ []) (0 + (tok t + 5)) := by
        simp only [degraded_loop, if_pos hfit]
      have hsuf : (t ++ SEP ++ []) <:+
          degraded_loop tok budget (t :: rest) [] 0 := by
        rw [hstep]; exact degraded_loop_suffix tok budget rest _ _
      have hdash : '-' ∈ degraded_loop tok budget (t :: rest) [] 0 := by
        apply hsuf.subset
        simp [SEP]
      exact List.ne_nil_of_mem (mem_pyStrip '-' _ hdash (by decide))
  refine ⟨by rw [hres, degraded_loop_eq]; simp, by rw [hres]; exact hnonempty, ?_⟩
  rw [hres]
  exact (hstrip _).trans
    (degraded_loop_tok_le tok budget h1 _ _ _ (le_of_eq h0) (Nat.zero_le _))

theorem claim_C2_witness :
    (compact_insights_collection
        (fun _ _ => "UNEXPECTED_ANTHROPIC_API_ERROR: x".toList)
        (fun s => List.count '-' s) (fun s _ => s)
        ["----".toList, ([] : Str)] 5 []).1
        = pyStrip
            (joinTrail (spec_recent_fit (fun s => List.count '-' s) 5
              ["----".toList, ([] : Str)].reverse 0).reverse)
      ∧ (compact_insights_collection
          (fun _ _ => "UNEXPECTED_ANTHROPIC_API_ERROR: x".toList)
          (fun s => List.count '-' s) (fun s _ => s)
          ["----".toList, ([] : Str)] 5 []).1 ≠ []
      ∧ (fun s => List.count '-' s)
          ((compact_insights_collection
            (fun _ _ => "UNEXPECTED_ANTHROPIC_API_ERROR: x".toList)
            (fun s => List.count '-' s) (fun s _ => s)
            ["----".toList, ([] : Str)] 5 []).1) ≤ 5 :=
  claim_C2_degraded_path _ _ _ _ _ _ (by decide) (by decide)
    (fun s u => by decide)
    (fun t s => by
      have hsep : List.count '-' SEP = 3 := by decide
      simp only [List.count_append, hsep]; omega)
    (fun s => count_pyStrip_le '-' s)
    (by decide) (by decide)

/-- Outcome of a single attempt of the remote summarization call (source
lines 169-187): a successful response text, a classified API failure
(`status_code = none` models `APITimeoutError`, which carries no status
code), or an unexpected exception. -/
inductive ApiOutcome where
  | success (text : Str)
  | apiFailure (status_code : Option Nat) (message : Str)
  | unexpectedFailure (message : Str)

/-- The retriability test of source line 179:
`error_code == 529 or error_code == 429 or (isinstance(error_code, int) and
500 <= error_code <= 599) or error_code == 'Timeout'`. -/
def retriable_code : Option Nat → Bool
  | some c => c == 529 || c == 429 || (decide (500 ≤ c) && decide (c ≤ 599))
  | none => true

/-- Rendering of the error code used inside the error-marker string. -/
def error_code_str : Option Nat → Str
  | some c => (toString c).toList
  | none => "Timeout".toList

/-- The error-marker string built at source line 178:
`f"ANTHROPIC_API_ERROR (Code {error_code}): {error_message}"`. -/
def api_error_text (code : Option Nat) (message : Str) : Str :=
  "ANTHROPIC_API_ERROR (Code ".toList ++ error_code_str code
    ++ "): ".toList ++ message

/-- The backoff delay of source line 181:
`min(INITIAL_BACKOFF_SECONDS * (2**(attempt-1)), MAX_BACKOFF_SECONDS) *
(1 + os.urandom(1)[0]/255.0 * 0.2)`, with the random byte `j` drawn from
the jitter source. -/
def backoff_delay (attempt : Nat) (j : Fin 256) : ℚ :=
  ((min (INITIAL_BACKOFF_SECONDS * 2 ^ (attempt - 1)) MAX_BACKOFF_SECONDS
      : Nat) : ℚ) * (1 + (j : ℚ) / 255 * (1 / 5))

/-- `call_anthropic_api` (source lines 169-187): the bounded retry loop,
parameterised by the per-attempt outcome stream and the jitter byte source.
Returns the string result together with the list of backoff delays slept. -/
def call_anthropic_api (outcomes : Nat → ApiOutcome) (jitter : Nat → Fin 256)
    (attempt : Nat) : Str × List ℚ :=
  match outcomes attempt with
  | .success text => (pyStrip text, [])
  | .apiFailure code msg =>
    if retriable_code code then
      if h : attempt < MAX_API_RETRIES then
        let backoff := backoff_delay attempt (jitter attempt)
        let r := call_anthropic_api outcomes jitter (attempt + 1)
        (r.1, backoff :: r.2)
      else (api_error_text code msg, [])
    else (api_error_text code msg, [])
  | .unexpectedFailure msg =>
    ("UNEXPECTED_ANTHROPIC_API_ERROR: ".toList ++ msg, [])
termination_by MAX_API_RETRIES - attempt
decreasing_by simp_wf; omega

theorem call_anthropic_api_retry_step (outcomes : Nat → ApiOutcome)
    (jitter : Nat → Fin 256) (a : Nat) (code : Option Nat) (msg : Str)
    (hout : outcomes a = .apiFailure code msg)
    (hret : retriable_code code = true) (hlt : a < MAX_API_RETRIES) :
    call_anthropic_api outcomes jitter a
      = ((call_anthropic_api outcomes jitter (a + 1)).1,
         backoff_delay a (jitter a)
           :: (call_anthropic_api outcomes jitter (a + 1)).2) := by
  rw [call_anthropic_api, hout]
  simp [hret, hlt]

theorem call_anthropic_api_exhausted (outcomes : Nat → ApiOutcome)
    (jitter : Nat → Fin 256) (a : Nat) (code : Option Nat) (msg : Str)
    (hout : outcomes a = .apiFailure code msg)
    (hge : ¬ a < MAX_API_RETRIES) :
    call_anthropic_api outcomes jitter a = (api_error_text code msg, []) := by
  rw [call_anthropic_api, hout]
  by_cases hret : retriable_code code = true <;> simp [hret, hge]

theorem is_error_marker_api_error_text (code : Option Nat) (msg : Str) :
    is_error_marker (api_error_text code msg) = true := by
  have h1 : "ANTHROPIC_".toList <+: "ANTHROPIC_API_ERROR (Code ".toList := by
    rw [← List.isPrefixOf_iff_prefix]; decide
  have h2 : "ANTHROPIC_".toList <+: api_error_text code msg := by
    unfold api_error_text
    refine h1.trans ?_
    rw [List.append_assoc, List.append_assoc]
    exact List.prefix_append _ _
  simp only [is_error_marker, Bool.or_eq_true, List.isPrefixOf_iff_prefix]
  exact Or.inl h2

theorem backoff_delay_bounds (a : Nat) (j : Fin 256) :
    (4 : ℚ) / 5 * ((min (INITIAL_BACKOFF_SECONDS * 2 ^ (a - 1))
        MAX_BACKOFF_SECONDS : Nat) : ℚ) ≤ backoff_delay a j
    ∧ backoff_delay a j ≤ (6 : ℚ) / 5
        * ((min (INITIAL_BACKOFF_SECONDS * 2 ^ (a - 1))
            MAX_BACKOFF_SECONDS : Nat) : ℚ) := by
  unfold backoff_delay
  set m : ℚ := ((min (INITIAL_BACKOFF_SECONDS * 2 ^ (a - 1))
      MAX_BACKOFF_SECONDS : Nat) : ℚ) with hm
  have hm0 : 0 ≤ m := by rw [hm]; exact Nat.cast_nonneg _
  have hj0 : (0 : ℚ) ≤ (j : ℚ) := by positivity
  have hj255 : (j : ℚ) ≤ 255 := by
    exact_mod_cast Nat.le_of_lt_succ j.isLt
  constructor
  · nlinarith [mul_nonneg hm0 hj0]
  · nlinarith [mul_nonneg hm0 (sub_nonneg.mpr hj255)]

/-- Claim C7: when every attempt hits a retriable failure (rate limit 429,
overloaded 529, any 5xx, or timeout), the adapter sleeps, before each
retry, a delay lying within [0.8, 1.2] times
min(INITIAL_BACKOFF_SECONDS * 2^(attempt-1), MAX_BACKOFF_SECONDS)
(the delay at list index k belongs to attempt k+1); it makes at most
MAX_API_RETRIES attempts in total (hence MAX_API_RETRIES - 1 sleeps), after
which it returns an error-marker string instead of raising. -/
theorem claim_C7_retry_policy (outcomes : Nat → ApiOutcome)
    (jitter : Nat → Fin 256)
    (hfail : ∀ a, ∃ code msg, outcomes a = ApiOutcome.apiFailure code msg
      ∧ retriable_code code = true) :
    is_error_marker (call_anthropic_api outcomes jitter 1).1 = true
    ∧ (call_anthropic_api outcomes jitter 1).2.length = MAX_API_RETRIES - 1
    ∧ ∀ k, k < (call_anthropic_api outcomes jitter 1).2.length →
        (4 : ℚ) / 5 * ((min (INITIAL_BACKOFF_SECONDS * 2 ^ k)
            MAX_BACKOFF_SECONDS : Nat) : ℚ)
          ≤ (call_anthropic_api outcomes jitter 1).2.getD k 0
        ∧ (call_anthropic_api outcomes jitter 1).2.getD k 0
          ≤ (6 : ℚ) / 5 * ((min (INITIAL_BACKOFF_SECONDS * 2 ^ k)
              MAX_BACKOFF_SECONDS : Nat) : ℚ) := by
  obtain ⟨c1, m1, ho1, hr1⟩ := hfail 1
  obtain ⟨c2, m2, ho2, hr2⟩ := hfail 2
  obtain ⟨c3, m3, ho3, hr3⟩ := hfail 3
  obtain ⟨c4, m4, ho4, hr4⟩ := hfail 4
  obtain ⟨c5, m5, ho5, hr5⟩ := hfail 5
  have e5 := call_anthropic_api_exhausted outcomes jitter 5 c5 m5 ho5
    (by decide)
  have e4 := call_anthropic_api_retry_step outcomes jitter 4 c4 m4 ho4 hr4
    (by decide)
  have e3 := call_anthropic_api_retry_step outcomes jitter 3 c3 m3 ho3 hr3
    (by decide)
  have e2 := call_anthropic_api_retry_step outcomes jitter 2 c2 m2 ho2 hr2
    (by decide)
  have e1 := call_anthropic_api_retry_step outcomes jitter 1 c1 m1 ho1 hr1
    (by decide)
  have eall : call_anthropic_api outcomes jitter 1
      = (api_error_text c5 m5,
         [backoff_delay 1 (jitter 1), backoff_delay 2 (jitter 2),
          backoff_delay 3 (jitter 3), backoff_delay 4 (jitter 4)]) := by
    rw [e1, e2, e3, e4, e5]
  refine ⟨by rw [eall]; exact is_error_marker_api_error_text _ _,
    by rw [eall]; rfl, ?_⟩
  intro k hk
  rw [eall] at hk ⊢
  simp only [List.length_cons, List.length_nil] at hk
  interval_cases k
  · simpa using backoff_delay_bounds 1 (jitter 1)
  · simpa using backoff_delay_bounds 2 (jitter 2)
  · simpa using backoff_delay_bounds 3 (jitter 3)
  · simpa using backoff_delay_bounds 4 (jitter 4)

theorem claim_C7_witness :
    is_error_marker (call_anthropic_api
        (fun _ => ApiOutcome.apiFailure (some 503) "boom".toList)
        (fun _ => (0 : Fin 256)) 1).1 = true
    ∧ (call_anthropic_api
        (fun _ => ApiOutcome.apiFailure (some 503) "boom".toList)
        (fun _ => (0 : Fin 256)) 1).2.length = MAX_API_RETRIES - 1
    ∧ ∀ k, k < (call_anthropic_api
          (fun _ => ApiOutcome.apiFailure (some 503) "boom".toList)
          (fun _ => (0 : Fin 256)) 1).2.length →
        (4 : ℚ) / 5 * ((min (INITIAL_BACKOFF_SECONDS * 2 ^ k)
            MAX_BACKOFF_SECONDS : Nat) : ℚ)
          ≤ (call_anthropic_api
              (fun _ => ApiOutcome.apiFailure (some 503) "boom".toList)
              (fun _ => (0 : Fin 256)) 1).2.getD k 0
        ∧ (call_anthropic_api
            (fun _ => ApiOutcome.apiFailure (some 503) "boom".toList)
            (fun _ => (0 : Fin 256)) 1).2.getD k 0
          ≤ (6 : ℚ) / 5 * ((min (INITIAL_BACKOFF_SECONDS * 2 ^ k)
              MAX_BACKOFF_SECONDS : Nat) : ℚ) :=
  claim_C7_retry_policy _ _
    (fun _ => ⟨some 503, "boom".toList, rfl, by decide⟩)

/-- One segment of a rich-text payload in the export file: a dict carrying
a text entry, a plain string, or any other shape (which contributes
nothing), following `parse_telegram_message_text` (source lines 107-113). -/
inductive TextSeg where
  | dictWithText (t : Str)
  | plainStr (s : Str)
  | otherSeg
deriving DecidableEq

/-- The `text` field of an exported message: a plain string, a list of
segments, or anything else. -/
inductive TextData where
  | pyStr (s : Str)
  | pyList (l : List TextSeg)
  | pyOther
deriving DecidableEq

/-- One raw Record of the export file, with the fields the source reads.
`id` and `date_unixtime` are `none` when `int(...)` on the underlying JSON
value fails; `msg_from` distinguishes an absent key (`none`), a null value
(`some none`) and a string (`some (some s)`); `file`, `photo` and `sticker`
model the truthiness of the corresponding fields. -/
structure RawMessage where
  id : Option Int
  date_unixtime : Option Int
  type : Str
  msg_from : Option (Option Str)
  text : TextData
  reply_to_message_id : Option Int
  file : Bool
  file_name : Option Str
  photo : Bool
  sticker : Bool
  sticker_emoji : Option Str
  date : Option Str
deriving DecidableEq

/-- The text of one segment (source line 111). -/
def seg_text : TextSeg → Str
  | .dictWithText t => t
  | .plainStr s => s
  | .otherSeg => []

/-- `parse_telegram_message_text` (source lines 107-113). -/
def parse_telegram_message_text : TextData → Str
  | .pyStr s => pyStrip s
  | .pyList l => pyStrip (l.map seg_text).flatten
  | .pyOther => []

/-- A message whose `id` and `date_unixtime` both parsed as integers
(source lines 122-128), carrying the parsed values. -/
structure ValidMsg where
  raw : RawMessage
  idv : Int
  tsv : Int
deriving DecidableEq

def validate_message (m : RawMessage) : Option ValidMsg :=
  match m.id, m.date_unixtime with
  | some i, some t => some ⟨m, i, t⟩
  | _, _ => none

def valid_messages_for_sorting (export_messages : List RawMessage) : List ValidMsg :=
  export_messages.filterMap validate_message

/-- `message_lookup_dict` (source line 127): keyed by parsed id, populated
in file order with later entries overwriting earlier ones, and holding only
Records of type `message`. -/
def message_lookup (valids : List ValidMsg) (i : Int) : Option ValidMsg :=
  valids.reverse.find?
    (fun v => (v.raw.type == "message".toList) && (v.idv == i))

/-- Strict lexicographic order on the `(date_unixtime, id)` sort key of
source line 130. -/
def key_lt (a b : ValidMsg) : Bool :=
  decide (a.tsv < b.tsv) || ((a.tsv == b.tsv) && decide (a.idv < b.idv))

/-- Stable insertion: the new element goes after all existing elements it
is not strictly below. -/
def insert_by (lt : α → α → Bool) (x : α) : List α → List α
  | [] => [x]
  | y :: ys => if lt x y then x :: y :: ys else y :: insert_by lt x ys

/-- Stable sort by repeated insertion, processing the list in file order;
for the total preorder on `(date_unixtime, id)` this yields the same list
as the stable `list.sort` of source line 130. -/
def sort_by (lt : α → α → Bool) (l : List α) : List α :=
  l.foldl (fun acc x => insert_by lt x acc) []

/-- The admission test of source lines 140-141, as the condition for a
Record NOT to be skipped: the Record is new relative to the stored cursor. -/
def is_new_vs_cursor (last_timestamp_unix_processed last_id_processed
    ts id : Int) : Bool :=
  ! (decide (ts < last_timestamp_unix_processed)
     || ((ts == last_timestamp_unix_processed)
         && decide (id ≤ last_id_processed)))

/-- Python truthiness of `msg_data.get('from','Unknown Sender') or 'System'`
(source lines 143 and 149): absent key gives the default, null or empty
string gives System. -/
def sender_of (f : Option (Option Str)) (dflt : Str) : Str :=
  match f with
  | none => dflt
  | some none => "System".toList
  | some (some s) => if s = [] then "System".toList else s

structure FormattedMessage where
  id : Int
  text_for_llm : Str
  timestamp_unix : Int
  timestamp_utc : Str
deriving DecidableEq

/-- The rendering part of the per-Record loop of
`load_and_format_new_messages` (source lines 143-165): the reply-quotation
head against the lookup dict and the final rendered line; `none` when the
Record has no renderable content (the else-continue of source line 165). -/
def format_line (lookup : Int → Option ValidMsg) (v : ValidMsg) :
    Option Str :=
    let text_content := parse_telegram_message_text v.raw.text
    let sender_name := sender_of v.raw.msg_from "Unknown Sender".toList
    let base_head := "From ".toList ++ sender_name ++ ":".toList
    let llm_text_head :=
      match v.raw.reply_to_message_id with
      | some rid =>
        if rid ≠ 0 then
          match lookup rid with
          | some original_msg =>
            let original_sender_name :=
              sender_of original_msg.raw.msg_from "Original Sender".toList
            let original_text :=
              parse_telegram_message_text original_msg.raw.text
            let original_text :=
              if original_text = [] then
                if original_msg.raw.file then
                  "[File: ".toList
                    ++ original_msg.raw.file_name.getD "attachment".toList
                    ++ "]".toList
                else if original_msg.raw.photo then "[Photo]".toList
                else if original_msg.raw.sticker then
                  pyStrip ("[Sticker ".toList
                    ++ original_msg.raw.sticker_emoji.getD [] ++ "]".toList)
                else []
              else original_text
            if original_text ≠ [] then
              let reply_snippet :=
                if original_text.length > 75 then
                  original_text.take 75 ++ "...".toList
                else original_text
              "From ".toList ++ sender_name ++ " (replying to \x27".toList
                ++ original_sender_name ++ ": ".toList ++ reply_snippet
                ++ "\x27):".toList
            else base_head
          | none => base_head
        else base_head
      | none => base_head
    let final_text_for_llm : Option Str :=
      if text_content ≠ [] then
        some (llm_text_head ++ " ".toList ++ text_content)
      else if v.raw.file then
        some (llm_text_head ++ " [Sent a file: ".toList
          ++ v.raw.file_name.getD "attachment".toList ++ "]".toList)
      else if v.raw.photo then
        some (llm_text_head ++ " [Sent a photo]".toList)
      else if v.raw.sticker then
        some (pyStrip (llm_text_head ++ " [Sent a sticker ".toList
          ++ v.raw.sticker_emoji.getD [] ++ "]".toList))
      else none
    final_text_for_llm

/-- The body of the per-Record loop of `load_and_format_new_messages`
(source lines 138-166): admission test against the cursor, type test, then
the rendered line; `none` when the Record is skipped. -/
def format_step (lookup : Int → Option ValidMsg)
    (last_id_processed last_timestamp_unix_processed : Int)
    (v : ValidMsg) : Option FormattedMessage :=
  if ! is_new_vs_cursor last_timestamp_unix_processed last_id_processed
      v.tsv v.idv then none
  else if v.raw.type ≠ "message".toList then none
  else
    Option.map (fun t => ⟨v.idv, t, v.tsv, v.raw.date.getD []⟩)
      (format_line lookup v)

/-- A dummy valid message标 used only as the default of guarded
head/last accesses (never reached). -/
def dummy_valid_msg : ValidMsg :=
  ⟨⟨none, none, [], none, .pyOther, none, false, none, false, false,
    none, none⟩, 0, 0⟩

/-- `load_and_format_new_messages` (source lines 115-167), starting from
the parsed list of Records of the export file (file reading and JSON
parsing are external to the core).  Returns the new formatted messages and
the first and last ids of the sorted valid Records. -/
def load_and_format_new_messages (export_messages : List RawMessage)
    (last_id_processed last_timestamp_unix_processed : Int) :
    List FormattedMessage × Int × Int :=
  let valid := valid_messages_for_sorting export_messages
  if valid = [] then ([], 0, 0)
  else
    let sorted := sort_by key_lt valid
    let first_id_in_file := (sorted.headD dummy_valid_msg).idv
    let last_id_in_file := (sorted.getLastD dummy_valid_msg).idv
    let new_formatted_messages :=
      sorted.filterMap
        (format_step (message_lookup valid) last_id_processed
          last_timestamp_unix_processed)
    (new_formatted_messages, first_id_in_file, last_id_in_file)

/-- A Record has renderable content when its parsed text is non-blank or it
carries a file, photo or sticker flag (the else-continue of source line
165 skips everything else). -/
def has_renderable_content (m : RawMessage) : Bool :=
  (parse_telegram_message_text m.text != []) || m.file || m.photo || m.sticker

theorem mem_insert_by (lt : α → α → Bool) (y x : α) :
    ∀ l : List α, x ∈ insert_by lt y l ↔ x = y ∨ x ∈ l := by
  intro l
  induction l with
  | nil => simp [insert_by]
  | cons z zs ih =>
    by_cases h : lt y z
    · simp [insert_by, h]
    · simp [insert_by, h, ih]
      tauto

theorem mem_sort_by_aux (lt : α → α → Bool) (l : List α) :
    ∀ (acc : List α) (x : α),
      x ∈ l.foldl (fun a y => insert_by lt y a) acc ↔ x ∈ acc ∨ x ∈ l := by
  induction l with
  | nil => intro acc x; simp
  | cons z zs ih =>
    intro acc x
    simp only [List.foldl_cons, ih, mem_insert_by, List.mem_cons]
    tauto

theorem mem_sort_by (lt : α → α → Bool) (l : List α) (x : α) :
    x ∈ sort_by lt l ↔ x ∈ l := by
  simp [sort_by, mem_sort_by_aux]

theorem format_step_skip_cursor (lookup : Int → Option ValidMsg)
    (lid lts : Int) (v : ValidMsg)
    (h1 : is_new_vs_cursor lts lid v.tsv v.idv = false) :
    format_step lookup lid lts v = none := by
  unfold format_step
  rw [h1]
  simp

theorem format_step_skip_type (lookup : Int → Option ValidMsg)
    (lid lts : Int) (v : ValidMsg)
    (h2 : v.raw.type ≠ "message".toList) :
    format_step lookup lid lts v = none := by
  unfold format_step
  by_cases h1 : is_new_vs_cursor lts lid v.tsv v.idv
  · rw [h1]
    simp only [Bool.not_true, Bool.false_eq_true, if_false]
    rw [if_pos h2]
  · rw [Bool.not_eq_true] at h1
    rw [h1]
    simp

theorem format_step_pass (lookup : Int → Option ValidMsg)
    (lid lts : Int) (v : ValidMsg)
    (h1 : is_new_vs_cursor lts lid v.tsv v.idv = true)
    (h2 : v.raw.type = "message".toList) :
    format_step lookup lid lts v
      = Option.map
          (fun t => (⟨v.idv, t, v.tsv, v.raw.date.getD []⟩ : FormattedMessage))
          (format_line lookup v) := by
  unfold format_step
  rw [h1]
  simp only [Bool.not_true, Bool.false_eq_true, if_false]
  rw [if_neg (not_not_intro h2)]

theorem format_line_isSome (lookup : Int → Option ValidMsg) (v : ValidMsg) :
    (format_line lookup v).isSome = true
      ↔ has_renderable_content v.raw = true := by
  unfold format_line has_renderable_content
  by_cases ht : parse_telegram_message_text v.raw.text = [] <;>
    by_cases hf : v.raw.file <;> by_cases hp : v.raw.photo <;>
      by_cases hs : v.raw.sticker <;> simp [ht, hf, hp, hs]

theorem format_step_isSome (lookup : Int → Option ValidMsg)
    (lid lts : Int) (v : ValidMsg) :
    (format_step lookup lid lts v).isSome = true ↔
      (is_new_vs_cursor lts lid v.tsv v.idv = true
       ∧ v.raw.type = "message".toList
       ∧ has_renderable_content v.raw = true) := by
  by_cases h1 : is_new_vs_cursor lts lid v.tsv v.idv
  · by_cases h2 : v.raw.type = "message".toList
    · rw [format_step_pass lookup lid lts v h1 h2]
      simp only [Option.isSome_map', h1, h2, true_and]
      rw [format_line_isSome]
    · rw [format_step_skip_type lookup lid lts v h2]
      constructor
      · intro hc; simp at hc
      · rintro ⟨-, hc, -⟩; exact absurd hc h2
  · rw [Bool.not_eq_true] at h1
    rw [format_step_skip_cursor lookup lid lts v h1]
    simp [h1]

theorem format_step_some_shape (lookup : Int → Option ValidMsg)
    (lid lts : Int) (v : ValidMsg) (fm : FormattedMessage)
    (h : format_step lookup lid lts v = some fm) :
    fm.id = v.idv ∧ fm.timestamp_unix = v.tsv
      ∧ is_new_vs_cursor lts lid v.tsv v.idv = true := by
  by_cases h1 : is_new_vs_cursor lts lid v.tsv v.idv
  · by_cases h2 : v.raw.type = "message".toList
    · rw [format_step_pass lookup lid lts v h1 h2,
        Option.map_eq_some'] at h
      obtain ⟨t, _, rfl⟩ := h
      exact ⟨rfl, rfl, h1⟩
    · rw [format_step_skip_type lookup lid lts v h2] at h
      cases h
  · rw [Bool.not_eq_true] at h1
    rw [format_step_skip_cursor lookup lid lts v h1] at h
    cases h


/-- Claim C1 counterexample: a Record of type `service` with
(timestamp, id) = (100, 1), strictly greater than the stored cursor (0, 0),
is NOT emitted by `load_and_format_new_messages`, refuting the claimed
if-and-only-if (the lexicographic comparison is necessary but not
sufficient: the Record must also be of type message with renderable
content). -/
theorem claim_C1_counterexample :
    (load_and_format_new_messages
      [⟨some 1, some 100, "service".toList, none,
        TextData.pyStr "hi".toList, none, false, none, false, false,
        none, none⟩] 0 0).1 = []
    ∧ is_new_vs_cursor 0 0 100 1 = true := by
  constructor
  · decide
  · decide

/-- Claim C1 (amended): a Record of the export file is emitted as new by
`load_and_format_new_messages` if and only if it is a valid Record (integer
id and timestamp) whose (timestamp, id) pair is lexicographically strictly
greater than the stored cursor pair AND whose type is message AND which has
renderable content (non-blank parsed text or a file/photo/sticker flag).
The admission test equals strict lexicographic comparison with the cursor,
and Records whose pair is at or below the cursor are never emitted. -/
theorem claim_C1_admission (export_messages : List RawMessage)
    (lid lts : Int) :
    (∀ fm, fm ∈ (load_and_format_new_messages export_messages lid lts).1 ↔
      ∃ v ∈ valid_messages_for_sorting export_messages,
        format_step (message_lookup (valid_messages_for_sorting
          export_messages)) lid lts v = some fm)
    ∧ (∀ lookup v, (format_step lookup lid lts v).isSome = true ↔
        (is_new_vs_cursor lts lid v.tsv v.idv = true
         ∧ v.raw.type = "message".toList
         ∧ has_renderable_content v.raw = true))
    ∧ (∀ ts id, is_new_vs_cursor lts lid ts id = true
        ↔ (lts < ts ∨ (lts = ts ∧ lid < id)))
    ∧ (∀ fm, fm ∈ (load_and_format_new_messages export_messages lid lts).1 →
        is_new_vs_cursor lts lid fm.timestamp_unix fm.id = true) := by
  have hmem : ∀ fm,
      fm ∈ (load_and_format_new_messages export_messages lid lts).1 ↔
      ∃ v ∈ valid_messages_for_sorting export_messages,
        format_step (message_lookup (valid_messages_for_sorting
          export_messages)) lid lts v = some fm := by
    intro fm
    unfold load_and_format_new_messages
    by_cases hv : valid_messages_for_sorting export_messages = []
    · simp [hv]
    · rw [if_neg hv]
      simp only [List.mem_filterMap]
      exact exists_congr
        (fun a => and_congr_left (fun _ => mem_sort_by key_lt _ a))
  refine ⟨hmem, fun lookup v => format_step_isSome lookup lid lts v, ?_, ?_⟩
  · intro ts id
    simp only [is_new_vs_cursor, Bool.not_eq_eq_eq_not, Bool.not_true,
      Bool.or_eq_false_iff, decide_eq_false_iff_not, Bool.and_eq_false_iff,
      beq_eq_false_iff_ne, ne_eq, Bool.not_eq_true]
    omega
  · intro fm hfm
    obtain ⟨v, _, hstep⟩ := (hmem fm).mp hfm
    obtain ⟨e1, e2, hn⟩ := format_step_some_shape _ _ _ _ _ hstep
    rw [e1, e2]
    exact hn

theorem claim_C1_witness :
    (⟨1, "From A: hi".toList, 100, []⟩ : FormattedMessage)
        ∈ (load_and_format_new_messages
          [⟨some 1, some 100, "message".toList, some (some "A".toList),
            TextData.pyStr "hi".toList, none, false, none, false, false,
            none, none⟩] 0 0).1
    ∧ is_new_vs_cursor 0 0 100 1 = true := by
  constructor
  · refine ((claim_C1_admission
      [⟨some 1, some 100, "message".toList, some (some "A".toList),
        TextData.pyStr "hi".toList, none, false, none, false, false,
        none, none⟩] 0 0).1 _).mpr ?_
    refine ⟨⟨⟨some 1, some 100, "message".toList, some (some "A".toList),
      TextData.pyStr "hi".toList, none, false, none, false, false,
      none, none⟩, 1, 100⟩, by decide, by decide⟩
  · exact ((claim_C1_admission [] 0 0).2.2.1 100 1).mpr (by omega)

/-- Claim C9: for every admitted message Record with non-blank text that
replies to a looked-up Record whose parsed text is blank but which carries
the photo flag (and no file flag), the rendered line substitutes the
placeholder [Photo] as the quoted snippet, in the form
From sender (replying to quoted original sender: [Photo]) followed by the
content. -/
theorem claim_C9_reply_photo_placeholder (lookup : Int → Option ValidMsg)
    (lid lts : Int) (v : ValidMsg) (rid : Int) (o : ValidMsg)
    (hnew : is_new_vs_cursor lts lid v.tsv v.idv = true)
    (htype : v.raw.type = "message".toList)
    (hreply : v.raw.reply_to_message_id = some rid)
    (hrid : rid ≠ 0)
    (hlook : lookup rid = some o)
    (hblank : parse_telegram_message_text o.raw.text = [])
    (hnofile : o.raw.file = false)
    (hphoto : o.raw.photo = true)
    (htext : parse_telegram_message_text v.raw.text ≠ []) :
    format_step lookup lid lts v = some
      ⟨v.idv,
       "From ".toList ++ sender_of v.raw.msg_from "Unknown Sender".toList
         ++ " (replying to \x27".toList
         ++ sender_of o.raw.msg_from "Original Sender".toList
         ++ ": ".toList ++ "[Photo]".toList ++ "\x27):".toList
         ++ " ".toList ++ parse_telegram_message_text v.raw.text,
       v.tsv, v.raw.date.getD []⟩ := by
  rw [format_step_pass lookup lid lts v hnew htype]
  unfold format_line
  rw [hreply]
  simp [hrid, hlook, hblank, hnofile, hphoto, htext, List.append_assoc]

theorem claim_C9_witness :
    format_step
      (fun i => if i = (7 : Int) then
        some ⟨⟨some 7, some 50, "message".toList, some (some "B".toList),
          TextData.pyStr [], none, false, none, true, false, none, none⟩,
          7, 50⟩
        else none) 0 0
      ⟨⟨some 9, some 90, "message".toList, some (some "A".toList),
        TextData.pyStr "hi".toList, some 7, false, none, false, false,
        none, none⟩, 9, 90⟩ = some
      ⟨9,
       "From ".toList
         ++ sender_of (some (some "A".toList)) "Unknown Sender".toList
         ++ " (replying to \x27".toList
         ++ sender_of (some (some "B".toList)) "Original Sender".toList
         ++ ": ".toList ++ "[Photo]".toList ++ "\x27):".toList
         ++ " ".toList ++ parse_telegram_message_text
              (TextData.pyStr "hi".toList),
       90, (none : Option Str).getD []⟩ :=
  claim_C9_reply_photo_placeholder
    (fun i => if i = (7 : Int) then
      some ⟨⟨some 7, some 50, "message".toList, some (some "B".toList),
        TextData.pyStr [], none, false, none, true, false, none, none⟩,
        7, 50⟩
      else none) 0 0
    ⟨⟨some 9, some 90, "message".toList, some (some "A".toList),
      TextData.pyStr "hi".toList, some 7, false, none, false, false,
      none, none⟩, 9, 90⟩ 7
    ⟨⟨some 7, some 50, "message".toList, some (some "B".toList),
      TextData.pyStr [], none, false, none, true, false, none, none⟩,
      7, 50⟩
    (by decide) rfl rfl (by decide) (by decide) (by decide) rfl rfl
    (by decide)

/-- `num_chunks` as computed at source line 352:
`(len(new_messages) + MESSAGES_PER_CHUNK - 1) // MESSAGES_PER_CHUNK`. -/
def num_chunks_of (n : Nat) : Nat :=
  (n + MESSAGES_PER_CHUNK - 1) / MESSAGES_PER_CHUNK

/-- The chunk slicing of source line 356:
`new_messages[i * MESSAGES_PER_CHUNK : (i + 1) * MESSAGES_PER_CHUNK]`. -/
def chunk_messages (new_messages : List FormattedMessage) (i : Nat) :
    List FormattedMessage :=
  pySlice new_messages (i * MESSAGES_PER_CHUNK) ((i + 1) * MESSAGES_PER_CHUNK)

theorem chunk_messages_succ (l : List FormattedMessage) (i : Nat) :
    chunk_messages l (i + 1)
      = chunk_messages (l.drop MESSAGES_PER_CHUNK) i := by
  unfold chunk_messages pySlice
  rw [List.drop_drop]
  have e1 : MESSAGES_PER_CHUNK + i * MESSAGES_PER_CHUNK
      = (i + 1) * MESSAGES_PER_CHUNK := by ring
  rw [e1]
  have e2 : (i + 1 + 1) * MESSAGES_PER_CHUNK - (i + 1) * MESSAGES_PER_CHUNK
      = (i + 1) * MESSAGES_PER_CHUNK - i * MESSAGES_PER_CHUNK := by
    simp [MESSAGES_PER_CHUNK]; omega
  rw [e2]

theorem chunks_flatten_aux :
    ∀ (n : Nat) (l : List FormattedMessage), l.length ≤ n →
      ((List.range (num_chunks_of l.length)).map
        (chunk_messages l)).flatten = l := by
  intro n
  induction n with
  | zero =>
    intro l hl
    have : l = [] := List.eq_nil_of_length_eq_zero (by omega)
    subst this
    rfl
  | succ n ih =>
    intro l hl
    by_cases h0 : l.length = 0
    · have : l = [] := List.eq_nil_of_length_eq_zero h0
      subst this
      rfl
    · have hnum : num_chunks_of l.length
          = num_chunks_of (l.drop MESSAGES_PER_CHUNK).length + 1 := by
        simp only [num_chunks_of, MESSAGES_PER_CHUNK, List.length_drop]
        omega
      rw [hnum, List.range_succ_eq_map, List.map_cons, List.flatten_cons]
      have hchunk0 : chunk_messages l 0 = l.take MESSAGES_PER_CHUNK := by
        simp [chunk_messages, pySlice]
      have hmaps : List.map (chunk_messages l)
            (List.map Nat.succ
              (List.range (num_chunks_of (l.drop MESSAGES_PER_CHUNK).length)))
          = List.map (chunk_messages (l.drop MESSAGES_PER_CHUNK))
              (List.range
                (num_chunks_of (l.drop MESSAGES_PER_CHUNK).length)) := by
        rw [List.map_map]
        exact List.map_congr_left (fun i _ => chunk_messages_succ l i)
      rw [hchunk0, hmaps, ih (l.drop MESSAGES_PER_CHUNK)
        (by simp only [List.length_drop, MESSAGES_PER_CHUNK]; omega)]
      exact List.take_append_drop _ l

/-- Claim C6: the filtered new-Records sequence of length n is partitioned
into ceil(n / MESSAGES_PER_CHUNK) contiguous chunks; chunk k holds exactly
the Records at positions k * MESSAGES_PER_CHUNK up to (k+1) *
MESSAGES_PER_CHUNK (exclusive) in original order; every chunk except
possibly the last has exactly MESSAGES_PER_CHUNK Records, and none has
more. -/
theorem claim_C6_chunk_partition (msgs : List FormattedMessage) :
    ((List.range (num_chunks_of msgs.length)).map
        (chunk_messages msgs)).flatten = msgs
    ∧ (∀ k j, (chunk_messages msgs k)[j]?
        = if j < MESSAGES_PER_CHUNK
          then msgs[k * MESSAGES_PER_CHUNK + j]? else none)
    ∧ (∀ k, k + 1 < num_chunks_of msgs.length →
        (chunk_messages msgs k).length = MESSAGES_PER_CHUNK)
    ∧ (∀ k, (chunk_messages msgs k).length ≤ MESSAGES_PER_CHUNK) := by
  refine ⟨chunks_flatten_aux msgs.length msgs le_rfl, ?_, ?_, ?_⟩
  · intro k j
    have e2 : (k + 1) * MESSAGES_PER_CHUNK - k * MESSAGES_PER_CHUNK
        = MESSAGES_PER_CHUNK := by
      simp [MESSAGES_PER_CHUNK]; omega
    simp [chunk_messages, pySlice, List.getElem?_take, List.getElem?_drop, e2]
  · intro k hk
    simp only [num_chunks_of, MESSAGES_PER_CHUNK] at hk
    simp only [chunk_messages, pySlice, List.length_take, List.length_drop,
      MESSAGES_PER_CHUNK]
    omega
  · intro k
    simp only [chunk_messages, pySlice, List.length_take, List.length_drop,
      MESSAGES_PER_CHUNK]
    omega

theorem claim_C6_witness :
    (chunk_messages
      (List.replicate 120 (⟨0, [], 0, []⟩ : FormattedMessage)) 0).length
      = MESSAGES_PER_CHUNK :=
  (claim_C6_chunk_partition
    (List.replicate 120 (⟨0, [], 0, []⟩ : FormattedMessage))).2.2.1 0
    (by decide)

/-- `SYSTEM_PROMPT_CHUNK_INSIGHTS` (source lines 15-22). -/
def SYSTEM_PROMPT_CHUNK_INSIGHTS : Str :=
  "You are an expert AI assistant. Your task is to analyze a new chunk of Telegram chat messages.
You have been provided with a \x27Previous Conversation Summary\x27 which summarizes key points from messages processed before this current chunk.
Based on BOTH the \x27Previous Conversation Summary\x27 AND the \x27Current Message Chunk\x27, identify and extract NEW key insights, decisions, important questions, action items, and main topics from the \x27Current Message Chunk\x27 ONLY.
Do not repeat information already well-covered in the \x27Previous Conversation Summary\x27 unless the new chunk significantly updates or refutes it or adds crucial new details.
If the \x27Current Message Chunk\x27 contains no new salient information, or is just noise/greetings/banter without substance when considering the previous summary, respond with the exact phrase \"NO_NEW_INSIGHTS\".
Otherwise, present the new insights for the current chunk concisely and clearly, using bullet points for distinct items. Focus on actionable and informative content.
The chat messages are in the format \x27Sender Name: Message content\x27 or \x27Sender Name (replying to \x27OriginalSender: Snippet\x27): Message content\x27.
".toList

/-- `SYSTEM_PROMPT_COMPACT_INSIGHTS_COLLECTION` (source lines 24-29). -/
def SYSTEM_PROMPT_COMPACT_INSIGHTS_COLLECTION : Str :=
  "You are an expert AI assistant. You will be given a \x27Collection of Previous Insights\x27 from a long-running Telegram chat. These insights were generated sequentially from chunks of the conversation.
Your task is to synthesize and compact this collection into a single, coherent, and concise \x27Updated Conversation Summary so far\x27.
This summary must retain all unique key information, decisions, questions, action items, and important topic developments mentioned in the individual insights.
Eliminate redundancy, combine related points, and maintain chronological flow where sensible. The goal is a dense, informative summary that is shorter than the sum of its parts but captures all critical information needed to understand the conversation\x27s progression.
Focus on factual extraction and key developments. Use clear language and bullet points for distinct pieces of information where appropriate. This summary will be used as context for processing future message chunks OR as input to a final report.
".toList

/-- `SYSTEM_PROMPT_FINAL_REPORT` (source lines 31-51). -/
def SYSTEM_PROMPT_FINAL_REPORT : Str :=
  "You are an expert AI assistant. You have been provided with a \x27Consolidated Summary of Key Conversation Insights\x27, which covers a long Telegram chat. These insights have been chronologically ordered and potentially pre-summarized.
Your task is to synthesize these insights into a single, well-structured, highly readable, and comprehensive \x27Final Report\x27 of the entire conversation.

The report should be formatted for easy readability by a human. Use clear headings, paragraphs, and MOST IMPORTANTLY, extensive use of bullet points for:
- Key Decisions Made (with when/who if identifiable)
- Major Action Items (assigned to whom if identifiable, and any deadlines)
- Significant Questions Raised (and their resolutions or if they remain open)
- Critical Takeaways and Conclusions

Structure your report logically:
1.  **Executive Summary:** A brief overview (2-3 paragraphs) of the entire conversation\x27s purpose, main outcomes, and critical conclusions.
2.  **Main Themes and Discussion Flow:** Describe the overarching topics and how the conversation evolved.
3.  **Detailed Breakdown:**
    * **Key Decisions:** Use bullet points. For each decision, briefly state the decision and any context.
    * **Action Items:** Use bullet points. For each action item, specify the task, who is responsible (if known), and any deadlines.
    * **Important Questions & Resolutions:** Use bullet points. List key questions, and their answers or current status.
    * **Other Significant Insights/Events:** Use bullet points for any other notable information, topic shifts, or unresolved issues.
4.  **Overall Conclusion/Next Steps (if apparent):** Summarize the final state of the discussion.

Ensure the report is detailed enough to be a standalone useful document. Do not just list the input insights; synthesize, structure, and rephrase them into this formal report format. Be comprehensive.
".toList

/-- One stored Insight (source lines 370-372). -/
structure Insight where
  chunk_start_message_id : Int
  chunk_end_message_id : Int
  chunk_start_message_timestamp_utc : Str
  chunk_end_message_timestamp_utc : Str
  insight_text : Str
  generated_at_utc : Str
deriving DecidableEq

/-- The persisted state snapshot (source lines 77-99). -/
structure StateData where
  last_processed_message_id : Int
  last_processed_message_timestamp_unix : Int
  individual_useful_insights : List Insight
  latest_report_filename : Option Str
  report_generated_at_utc : Option Str
  system_prompts_used : List (Str × Str)
deriving DecidableEq

/-- `save_state_data` (source lines 93-99): the snapshot actually written,
with the three instruction texts recorded for auditability.  The source
mutates the dict in place before dumping it, so the in-memory state after a
save equals the written snapshot. -/
def save_state_data (data : StateData) : StateData :=
  { data with system_prompts_used :=
      [("chunk_insights".toList, SYSTEM_PROMPT_CHUNK_INSIGHTS),
       ("compact_insights_collection".toList,
         SYSTEM_PROMPT_COMPACT_INSIGHTS_COLLECTION),
       ("final_report".toList, SYSTEM_PROMPT_FINAL_REPORT)] }

/-- A parsed state file before the `setdefault` calls of source lines
81-86: each field may be absent. -/
structure PartialStateData where
  last_processed_message_id : Option Int
  last_processed_message_timestamp_unix : Option Int
  individual_useful_insights : Option (List Insight)
  latest_report_filename : Option (Option Str)
  report_generated_at_utc : Option (Option Str)
  system_prompts_used : Option (List (Str × Str))
deriving DecidableEq

/-- The possible outcomes of reading the state snapshot file: the file does
not exist, it exists but reading or JSON-parsing raises, or it parses to a
dict with some subset of the expected keys. -/
inductive StateFileRead where
  | missing
  | unreadable
  | parsed (d : PartialStateData)
deriving DecidableEq

/-- The fresh default state of source lines 89-91. -/
def fresh_state : StateData := ⟨0, 0, [], none, none, []⟩

/-- `load_state_data` (source lines 77-91): a missing, unreadable or
unparsable state file yields the fresh default state; a parsed dict has its
missing keys defaulted. -/
def load_state_data : StateFileRead → StateData
  | .missing => fresh_state
  | .unreadable => fresh_state
  | .parsed d =>
    ⟨d.last_processed_message_id.getD 0,
     d.last_processed_message_timestamp_unix.getD 0,
     d.individual_useful_insights.getD [],
     d.latest_report_filename.getD none,
     d.report_generated_at_utc.getD none,
     d.system_prompts_used.getD []⟩

/-- Claim C10: a missing, unreadable or unparsable state snapshot makes
`load_state_data` return the fresh default state — cursor (0, 0), empty
Insight collection, no Report reference — without raising; consequently the
admission test with the reset cursor admits every Record with a positive
timestamp (every real Record of the next export) as new again. -/
theorem claim_C10_state_reset :
    load_state_data .missing = fresh_state
    ∧ load_state_data .unreadable = fresh_state
    ∧ fresh_state.last_processed_message_timestamp_unix = 0
    ∧ fresh_state.last_processed_message_id = 0
    ∧ fresh_state.individual_useful_insights = []
    ∧ fresh_state.latest_report_filename = none
    ∧ ∀ ts id : Int, 0 < ts →
        is_new_vs_cursor fresh_state.last_processed_message_timestamp_unix
          fresh_state.last_processed_message_id ts id = true := by
  refine ⟨rfl, rfl, rfl, rfl, rfl, rfl, ?_⟩
  intro ts id h
  simp only [is_new_vs_cursor, fresh_state, Bool.not_eq_eq_eq_not,
    Bool.not_true, Bool.or_eq_false_iff, decide_eq_false_iff_not,
    Bool.and_eq_false_iff, beq_eq_false_iff_ne, ne_eq, Bool.not_eq_true]
  omega

theorem claim_C10_witness :
    is_new_vs_cursor fresh_state.last_processed_message_timestamp_unix
      fresh_state.last_processed_message_id 100 1 = true :=
  claim_C10_state_reset.2.2.2.2.2.2 100 1 (by omega)

def dummy_formatted_msg : FormattedMessage := ⟨0, [], 0, []⟩

/-- The per-chunk prompt of source line 360. -/
def chunk_prompt (previous_insights_context_str : Str)
    (chunk : List FormattedMessage) : Str :=
  "Previous Conversation Summary:\n".toList
    ++ (if previous_insights_context_str ≠ []
        then previous_insights_context_str
        else "No previous summary available.".toList)
    ++ "\n\n---\n\nCurrent Message Chunk:\n".toList
    ++ pyJoin "\n".toList (chunk.map (fun m => m.text_for_llm))

/-- The cursor advance and report invalidation of source lines 384-386. -/
def advance_state (st : StateData) (chunk : List FormattedMessage) :
    StateData :=
  { st with
    last_processed_message_id := (chunk.getLastD dummy_formatted_msg).id,
    last_processed_message_timestamp_unix :=
      (chunk.getLastD dummy_formatted_msg).timestamp_unix,
    latest_report_filename := none,
    report_generated_at_utc := none }

/-- Result of the chunk loop: the in-memory state when the loop ends, the
snapshots persisted in order, the two flags of source line 353, and the
indices of the chunks whose insight call was issued. -/
structure RunResult where
  state : StateData
  persisted : List StateData
  any_new_insights : Bool
  all_chunks_successful : Bool
  chunk_calls : List Nat
deriving DecidableEq

/-- The chunk loop of `process_chat_folder` (source lines 355-388), from
chunk index `i` on, parameterised like `compact_insights_collection` plus a
clock `gen_time` for the per-insight creation timestamps. -/
def run_chunks (api : Str → Str → Str) (tok : Str → Nat)
    (trunc : Str → Int → Str) (gen_time : Nat → Str)
    (new_messages : List FormattedMessage) (num_chunks i : Nat)
    (state_data : StateData) (previous_insights_context_str : Str)
    (persisted : List StateData) (any_new_insights_this_run : Bool) :
    RunResult :=
  if h : i < num_chunks then
    let chunk := chunk_messages new_messages i
    if chunk = [] then
      run_chunks api tok trunc gen_time new_messages num_chunks (i + 1)
        state_data previous_insights_context_str persisted
        any_new_insights_this_run
    else
      let chunk_insight_text := api SYSTEM_PROMPT_CHUNK_INSIGHTS
        (chunk_prompt previous_insights_context_str chunk)
      if is_error_marker chunk_insight_text then
        ⟨state_data, persisted, any_new_insights_this_run, false, [i]⟩
      else if chunk_insight_text = "NO_NEW_INSIGHTS".toList then
        let state2 := advance_state state_data chunk
        let saved := save_state_data state2
        let r := run_chunks api tok trunc gen_time new_messages num_chunks
          (i + 1) saved previous_insights_context_str (persisted ++ [saved])
          any_new_insights_this_run
        { r with chunk_calls := i :: r.chunk_calls }
      else
        let new_insight_obj : Insight :=
          ⟨(chunk.headD dummy_formatted_msg).id,
           (chunk.getLastD dummy_formatted_msg).id,
           (chunk.headD dummy_formatted_msg).timestamp_utc,
           (chunk.getLastD dummy_formatted_msg).timestamp_utc,
           chunk_insight_text, gen_time i⟩
        let state1 := { state_data with individual_useful_insights :=
          state_data.individual_useful_insights ++ [new_insight_obj] }
        let ctx2 := (compact_insights_collection api tok trunc
          (state1.individual_useful_insights.map (fun it => it.insight_text))
          MAX_PREVIOUS_INSIGHTS_TOKENS_FOR_CHUNK_PROCESSING
          SYSTEM_PROMPT_COMPACT_INSIGHTS_COLLECTION).1
        if is_error_marker ctx2 then
          ⟨state1, persisted, true, false, [i]⟩
        else
          let state2 := advance_state state1 chunk
          let saved := save_state_data state2
          let r := run_chunks api tok trunc gen_time new_messages num_chunks
            (i + 1) saved ctx2 (persisted ++ [saved]) true
          { r with chunk_calls := i :: r.chunk_calls }
  else ⟨state_data, persisted, any_new_insights_this_run, true, []⟩
termination_by num_chunks - i
decreasing_by all_goals omega

/-- Claim C3: if the summarization call for chunk i returns an error
marker, the chunk loop stops immediately at chunk i — the in-memory state
and the persisted snapshot list it entered iteration i with (which hold
every Insight and cursor advance committed for the chunks before i) are
returned untouched, the success flag is false, and the only insight call
issued from iteration i on is the one for chunk i (no chunk j greater than
i is processed). -/
theorem claim_C3_error_aborts_loop (api : Str → Str → Str)
    (tok : Str → Nat) (trunc : Str → Int → Str) (gen_time : Nat → Str)
    (msgs : List FormattedMessage) (n i : Nat) (st : StateData) (ctx : Str)
    (p : List StateData) (a : Bool)
    (hi : i < n)
    (hc : chunk_messages msgs i ≠ [])
    (herr : is_error_marker (api SYSTEM_PROMPT_CHUNK_INSIGHTS
      (chunk_prompt ctx (chunk_messages msgs i))) = true) :
    run_chunks api tok trunc gen_time msgs n i st ctx p a
      = ⟨st, p, a, false, [i]⟩ := by
  rw [run_chunks]
  simp only [dif_pos hi, if_neg hc, herr, if_pos]

theorem claim_C3_witness :
    run_chunks (fun _ _ => "ANTHROPIC_API_ERROR (Code 400): x".toList)
      (fun _ => 0) (fun s _ => s) (fun _ => [])
      [dummy_formatted_msg] 1 0 fresh_state [] [] false
      = ⟨fresh_state, [], false, false, [0]⟩ :=
  claim_C3_error_aborts_loop
    (fun _ _ => "ANTHROPIC_API_ERROR (Code 400): x".toList) (fun _ => 0)
    (fun s _ => s) (fun _ => []) [dummy_formatted_msg] 1 0 fresh_state []
    [] false (by decide) (by decide) (by decide)

/-- Claim C5: if the summarization call for chunk i returns the literal
sentinel NO_NEW_INSIGHTS, no Insight is appended, but the cursor is still
advanced to the (timestamp, id) of the last Record of chunk i and the
resulting snapshot is persisted (appended to the persisted list) before the
loop proceeds to chunk i+1. -/
theorem claim_C5_no_new_insights_durable_noop (api : Str → Str → Str)
    (tok : Str → Nat) (trunc : Str → Int → Str) (gen_time : Nat → Str)
    (msgs : List FormattedMessage) (n i : Nat) (st : StateData) (ctx : Str)
    (p : List StateData) (a : Bool)
    (hi : i < n)
    (hc : chunk_messages msgs i ≠ [])
    (hres : api SYSTEM_PROMPT_CHUNK_INSIGHTS
      (chunk_prompt ctx (chunk_messages msgs i)) = "NO_NEW_INSIGHTS".toList) :
    (run_chunks api tok trunc gen_time msgs n i st ctx p a
      = (let saved := save_state_data (advance_state st (chunk_messages msgs i))
         let r := run_chunks api tok trunc gen_time msgs n (i + 1) saved ctx
           (p ++ [saved]) a
         { r with chunk_calls := i :: r.chunk_calls }))
    ∧ StateData.individual_useful_insights
        (save_state_data (advance_state st (chunk_messages msgs i)))
        = st.individual_useful_insights
    ∧ StateData.last_processed_message_id
        (save_state_data (advance_state st (chunk_messages msgs i)))
        = ((chunk_messages msgs i).getLastD dummy_formatted_msg).id
    ∧ StateData.last_processed_message_timestamp_unix
        (save_state_data (advance_state st (chunk_messages msgs i)))
        = ((chunk_messages msgs i).getLastD
            dummy_formatted_msg).timestamp_unix := by
  refine ⟨?_, rfl, rfl, rfl⟩
  rw [run_chunks]
  have hnm : is_error_marker "NO_NEW_INSIGHTS".toList = false := by decide
  simp only [dif_pos hi, if_neg hc, hres, hnm, Bool.false_eq_true,
    if_false, if_pos]

theorem claim_C5_witness :
    (run_chunks (fun _ _ => "NO_NEW_INSIGHTS".toList)
      (fun _ => 0) (fun s _ => s) (fun _ => [])
      [dummy_formatted_msg] 1 0 fresh_state [] [] false
      = (let saved := save_state_data
           (advance_state fresh_state
             (chunk_messages [dummy_formatted_msg] 0))
         let r := run_chunks (fun _ _ => "NO_NEW_INSIGHTS".toList)
           (fun _ => 0) (fun s _ => s) (fun _ => [])
           [dummy_formatted_msg] 1 1 saved [] ([] ++ [saved]) false
         { r with chunk_calls := 0 :: r.chunk_calls }))
    ∧ StateData.individual_useful_insights (save_state_data
        (advance_state fresh_state (chunk_messages [dummy_formatted_msg] 0)))
        = fresh_state.individual_useful_insights
    ∧ StateData.last_processed_message_id (save_state_data
        (advance_state fresh_state (chunk_messages [dummy_formatted_msg] 0)))
        = ((chunk_messages [dummy_formatted_msg] 0).getLastD
            dummy_formatted_msg).id
    ∧ StateData.last_processed_message_timestamp_unix (save_state_data
        (advance_state fresh_state (chunk_messages [dummy_formatted_msg] 0)))
        = ((chunk_messages [dummy_formatted_msg] 0).getLastD
            dummy_formatted_msg).timestamp_unix :=
  claim_C5_no_new_insights_durable_noop
    (fun _ _ => "NO_NEW_INSIGHTS".toList) (fun _ => 0) (fun s _ => s)
    (fun _ => []) [dummy_formatted_msg] 1 0 fresh_state [] [] false
    (by decide) (by decide) (by decide)

/-- Python truthiness of `not state_data_ref.get("latest_report_filename")`
(source line 225): true when the reference is absent or empty. -/
def py_falsy_opt_str (f : Option Str) : Bool :=
  match f with
  | none => true
  | some s => s.isEmpty

/-- `os.path.join` for the one shape the source uses. -/
def os_path_join (a b : Str) : Str := a ++ "/".toList ++ b

/-- The trigger condition of source lines 223-227. -/
def should_generate_report (st : StateData)
    (report_file_exists : Str → Bool) (chat_folder_path : Str)
    (new_insights_were_added_this_run : Bool) : Bool :=
  new_insights_were_added_this_run
  || (!st.individual_useful_insights.isEmpty
      && (py_falsy_opt_str st.latest_report_filename
          || st.report_generated_at_utc.isNone
          || !report_file_exists (os_path_join chat_folder_path
              (st.latest_report_filename.getD "----.txt".toList))))

/-- The non-empty, non-sentinel insight texts gathered at source lines
234-235. -/
def substantial_insights (st : StateData) : List Str :=
  (st.individual_useful_insights.filter
    (fun item => !item.insight_text.isEmpty
      && item.insight_text != "NO_NEW_INSIGHTS".toList)).map
    (fun item => item.insight_text)

/-- The meta-chunk partition of source lines 250-251:
`[lst[i:i+size] for i in range(0, len(lst), size)]`. -/
def meta_chunk_list (size : Nat) (l : List Str) : List (List Str) :=
  (List.range ((l.length + size - 1) / size)).map
    (fun i => pySlice l (i * size) ((i + 1) * size))

/-- Result of `generate_and_save_final_report_txt`: the boolean returned to
the caller, the in-memory state when the function returns, and the
snapshots persisted. -/
structure ReportResult where
  ok : Bool
  state : StateData
  persisted : List StateData
deriving DecidableEq

/-- `generate_and_save_final_report_txt` (source lines 222-304),
parameterised by the service stub, the tokenizer, the report-file existence
check, the clock strings and whether the report file write succeeds. -/
def generate_and_save_final_report_txt (api : Str → Str → Str)
    (tok : Str → Nat) (report_file_exists : Str → Bool)
    (chat_folder_path folder_base : Str) (now_utc report_date_str : Str)
    (write_ok : Bool) (state_data_ref : StateData)
    (new_insights_were_added_this_run : Bool) : ReportResult :=
  if !(should_generate_report state_data_ref report_file_exists
      chat_folder_path new_insights_were_added_this_run) then
    ⟨true, state_data_ref, []⟩
  else
    let all_individual_insights := substantial_insights state_data_ref
    if all_individual_insights = [] then
      let st1 := { state_data_ref with
        latest_report_filename := none
        report_generated_at_utc := some now_utc }
      let saved := save_state_data st1
      ⟨true, saved, [saved]⟩
    else
      let current_input_for_report := pyJoin SEP all_individual_insights
      let current_tokens := tok current_input_for_report
      let current_input_for_report :=
        if current_tokens > MAX_TOKENS_FOR_FINAL_REPORT_GENERATION then
          let meta_chunked_insights :=
            meta_chunk_list MAX_INSIGHTS_PER_META_CHUNK_FOR_REPORT
              all_individual_insights
          pyJoin SEP (meta_chunked_insights.enum.map (fun p =>
            let meta_chunk_text := pyJoin SEP p.2
            let meta_summary := api SYSTEM_PROMPT_COMPACT_INSIGHTS_COLLECTION
              ("Please provide a concise summary of the following insights, which are part of a larger collection for a final report:\n\n".toList
                ++ meta_chunk_text)
            if is_error_marker meta_summary then
              "[Error summarizing meta-chunk ".toList
                ++ (toString (p.1 + 1)).toList ++ ": ".toList
                ++ meta_summary ++ "]".toList
            else meta_summary))
        else current_input_for_report
      let final_report_text_content := api SYSTEM_PROMPT_FINAL_REPORT
        ("Using the following consolidated key insights, please generate the final report as per the detailed instructions:\n\n".toList
          ++ current_input_for_report)
      if is_error_marker final_report_text_content then
        let st1 := { state_data_ref with
          latest_report_filename := none
          report_generated_at_utc := some now_utc }
        let saved := save_state_data st1
        ⟨false, saved, [saved]⟩
      else
        let report_filename := folder_base ++ "-Report-".toList
          ++ report_date_str ++ ".txt".toList
        if write_ok then
          let st1 := { state_data_ref with
            latest_report_filename := some report_filename
            report_generated_at_utc := some now_utc }
          let saved := save_state_data st1
          ⟨true, saved, [saved]⟩
        else
          let st1 := { state_data_ref with
            latest_report_filename := none
            report_generated_at_utc := some now_utc }
          let saved := save_state_data st1
          ⟨false, saved, [saved]⟩

/-- Claim C8: in every run that reaches the final report synthesis call (a
triggered regeneration with at least one substantial insight), if that call
returns an error marker, the function clears the report-artifact reference,
persists exactly that cleared snapshot, reports failure to its caller, and
leaves the Insight collection and the Resumption Cursor unchanged. -/
theorem claim_C8_report_failure_clears (api : Str → Str → Str)
    (tok : Str → Nat) (report_file_exists : Str → Bool)
    (chat_folder_path folder_base now_utc report_date_str : Str)
    (write_ok : Bool) (st : StateData) (flag : Bool)
    (hshould : should_generate_report st report_file_exists
      chat_folder_path flag = true)
    (hne : substantial_insights st ≠ [])
    (hfail : ∀ u, is_error_marker (api SYSTEM_PROMPT_FINAL_REPORT u)
      = true) :
    (generate_and_save_final_report_txt api tok report_file_exists
        chat_folder_path folder_base now_utc report_date_str write_ok st flag
      = ⟨false,
         save_state_data { st with
           latest_report_filename := none
           report_generated_at_utc := some now_utc },
         [save_state_data { st with
           latest_report_filename := none
           report_generated_at_utc := some now_utc }]⟩)
    ∧ StateData.latest_report_filename
        (save_state_data { st with
          latest_report_filename := none
          report_generated_at_utc := some now_utc }) = none
    ∧ StateData.individual_useful_insights
        (save_state_data { st with
          latest_report_filename := none
          report_generated_at_utc := some now_utc })
        = st.individual_useful_insights
    ∧ StateData.last_processed_message_id
        (save_state_data { st with
          latest_report_filename := none
          report_generated_at_utc := some now_utc })
        = st.last_processed_message_id
    ∧ StateData.last_processed_message_timestamp_unix
        (save_state_data { st with
          latest_report_filename := none
          report_generated_at_utc := some now_utc })
        = st.last_processed_message_timestamp_unix := by
  refine ⟨?_, rfl, rfl, rfl, rfl⟩
  unfold generate_and_save_final_report_txt
  rw [hshould]
  simp only [Bool.not_true, Bool.false_eq_true, if_false, if_neg hne]
  by_cases ht : tok (pyJoin SEP (substantial_insights st))
      > MAX_TOKENS_FOR_FINAL_REPORT_GENERATION
  · rw [if_pos ht, if_pos (hfail _)]
  · rw [if_neg ht, if_pos (hfail _)]

theorem claim_C8_witness :
    (generate_and_save_final_report_txt
        (fun _ _ => "ANTHROPIC_API_ERROR (Code 400): x".toList)
        (fun _ => 0) (fun _ => true) "c".toList "c".toList "t".toList
        "d".toList true
        { fresh_state with individual_useful_insights :=
            [⟨1, 2, [], [], "x".toList, []⟩] } true
      = ⟨false,
         save_state_data { { fresh_state with individual_useful_insights :=
             [⟨1, 2, [], [], "x".toList, []⟩] } with
           latest_report_filename := none
           report_generated_at_utc := some "t".toList },
         [save_state_data { { fresh_state with individual_useful_insights :=
             [⟨1, 2, [], [], "x".toList, []⟩] } with
           latest_report_filename := none
           report_generated_at_utc := some "t".toList }]⟩)
    ∧ StateData.latest_report_filename
        (save_state_data { { fresh_state with individual_useful_insights :=
            [⟨1, 2, [], [], "x".toList, []⟩] } with
          latest_report_filename := none
          report_generated_at_utc := some "t".toList }) = none
    ∧ StateData.individual_useful_insights
        (save_state_data { { fresh_state with individual_useful_insights :=
            [⟨1, 2, [], [], "x".toList, []⟩] } with
          latest_report_filename := none
          report_generated_at_utc := some "t".toList })
        = StateData.individual_useful_insights
            { fresh_state with individual_useful_insights :=
              [⟨1, 2, [], [], "x".toList, []⟩] }
    ∧ StateData.last_processed_message_id
        (save_state_data { { fresh_state with individual_useful_insights :=
            [⟨1, 2, [], [], "x".toList, []⟩] } with
          latest_report_filename := none
          report_generated_at_utc := some "t".toList })
        = StateData.last_processed_message_id
            { fresh_state with individual_useful_insights :=
              [⟨1, 2, [], [], "x".toList, []⟩] }
    ∧ StateData.last_processed_message_timestamp_unix
        (save_state_data { { fresh_state with individual_useful_insights :=
            [⟨1, 2, [], [], "x".toList, []⟩] } with
          latest_report_filename := none
          report_generated_at_utc := some "t".toList })
        = StateData.last_processed_message_timestamp_unix
            { fresh_state with individual_useful_insights :=
              [⟨1, 2, [], [], "x".toList, []⟩] } :=
  claim_C8_report_failure_clears
    (fun _ _ => "ANTHROPIC_API_ERROR (Code 400): x".toList)
    (fun _ => 0) (fun _ => true) "c".toList "c".toList "t".toList
    "d".toList true
    { fresh_state with individual_useful_insights :=
        [⟨1, 2, [], [], "x".toList, []⟩] } true
    (by decide) (by decide) (fun _ => rfl)
